import Mathlib

/-!
Shallow embedding of `superpipe/steps/serp.py` (class `SERPEnrichmentStep`).

Python exceptions are modelled with `Except PyErr`; a Python callable that
may raise is a Lean function into `Except PyErr`.  Attribute access on a
callable object (reading `__name__`) is modelled explicitly, since not every
Python callable has a `__name__` attribute (e.g. a `functools.partial`
object does not).

The imported collaborators `Step`, `StepResult` (from `superpipe/steps/step.py`)
and `with_statistics` (from `superpipe/steps/utils.py`) are part of this
repository but their source is not available here; they are modelled from the
specification, as marked on each definition.
-/

/-- A Python exception value: its class name (kind) and its message. -/
structure PyErr where
  kind : String
  msg : String
deriving DecidableEq, Repr

/-- A Python callable object of one argument that may raise an exception.
`attrName` is its `__name__` attribute when it has one; `none` models a
callable object (such as a `functools.partial`) that lacks `__name__`. -/
structure PyCallable (α β : Type) where
  fn : α → Except PyErr β
  attrName : Option String

/-- Reading `c.__name__` on a Python object: returns the attribute when
present, raises `AttributeError` when absent. -/
def pyDunderName {α β : Type} (c : PyCallable α β) : Except PyErr String :=
  match c.attrName with
  | some n => Except.ok n
  | none => Except.error ⟨"AttributeError", "object has no attribute __name__"⟩

/-- Modelled from the spec: the per-call value slot produced by the
instrumentation wrapper.  On success it carries the callable's return value;
on failure it carries "a well-defined error marker (not a silent `None`)",
here the exception itself, tagged so it is distinct from any success value. -/
inductive StepValue (β : Type) where
  | ok (v : β)
  | errMarker (e : PyErr)
deriving DecidableEq, Repr

/-- Modelled from the spec: the statistics sidecar recorded by
`with_statistics` — "at minimum elapsed time and success/failure outcome",
with the error indicator carrying "kind + message" on failure. -/
structure Statistics where
  latency : Nat
  success : Bool
  error : Option PyErr
deriving DecidableEq, Repr

/-- Modelled from the spec: `with_statistics` from `superpipe/steps/utils.py`
(not under `src/`).  It wraps a one-argument callable and returns
`(result, statistics)`: it invokes the callable once; elapsed wall-clock time
(`elapsed`, a parameter of the model standing for the measured duration) is
recorded in `statistics.latency` regardless of outcome; a raised exception is
caught and recorded as kind + message with `success := false` and the error
marker as the result; a normal return is recorded with `success := true`. -/
def with_statistics {α β : Type} (elapsed : Nat) (fn : α → Except PyErr β) :
    α → StepValue β × Statistics :=
  fun x =>
    match fn x with
    | Except.ok v => (StepValue.ok v, ⟨elapsed, true, none⟩)
    | Except.error e => (StepValue.errMarker e, ⟨elapsed, false, some e⟩)

/-- Modelled from the spec: `StepResult` from `superpipe/steps/step.py`
(not under `src/`): the uniform per-row output envelope with the produced
fields (a name-to-value mapping, here an association list), the statistics of
the underlying call, and the effective input sent to the external call. -/
structure StepResult (β : Type) where
  fields : List (String × StepValue β)
  statistics : Statistics
  input : String
deriving DecidableEq, Repr

/-- Modelled from the spec: `Step.get_params` of the abstract base class
`Step` from `superpipe/steps/step.py` (not under `src/`): a description of
the base configuration, which carries the step's name.  Values of the
parameter mapping are human-readable labels (`Option String`, with `none`
for Python `None`), never callables. -/
def stepBaseGetParams (name : String) : List (String × Option String) :=
  [("name", some name)]

/-- An HTTP response as seen through the `requests` library: a status code
and the body text. -/
structure HttpResponse where
  status : Nat
  text : String
deriving DecidableEq, Repr

/-- An HTTP request as issued by `requests.request` in
`_get_search_results`: method, URL, headers (a header value is
`Option String` because `os.environ.get` may return `None`), and body. -/
structure HttpRequest where
  method : String
  url : String
  headers : List (String × Option String)
  data : String
deriving DecidableEq, Repr

/-- The HTTP client collaborator: `requests.request` performs the request
and either returns a response (whatever its status code — `requests` does
not raise on non-2xx statuses) or raises on a transport-level failure. -/
def HttpClient : Type := HttpRequest → Except PyErr HttpResponse

/-- The process environment, `os.environ.get`. -/
def PyEnv : Type := String → Option String

/-- Encoding of `json.dumps({"q": q})`: a one-key JSON object.  Escaping of
the embedded string follows `json.dumps` for quotes and backslashes. -/
def jsonEscape (s : String) : String :=
  String.join (s.data.map (fun c =>
    if c = '"' then "\\\"" else if c = '\\' then "\\\\" else String.singleton c))

/-- The serialized payload `json.dumps({"q": q})` built in
`_get_search_results`. -/
def serpPayload (q : String) : String :=
  "\x7b\"q\": \"" ++ jsonEscape q ++ "\"\x7d"

/-- The exact request `_get_search_results` issues for query `q`. -/
def serpRequest (env : PyEnv) (q : String) : HttpRequest :=
  { method := "POST"
    url := "https://google.serper.dev/search"
    headers := [("X-API-KEY", env "SERPAPI_API_KEY"),
                ("Content-Type", some "application/json")]
    data := serpPayload q }

/-- The `SERPEnrichmentStep` configuration (from `serp.py`): the step's
name, the `prompt` callable deriving a query from a row, and the optional
`postprocess` callable. -/
structure SERPEnrichmentStep (ρ : Type) where
  name : String
  prompt : PyCallable ρ String
  postprocess : Option (PyCallable String String)

namespace SERPEnrichmentStep

/-- Method `get_params` of `SERPEnrichmentStep` from `serp.py`: merges
`super().get_params()` with the `__name__` of `prompt` and, when configured,
of `postprocess` (Python `None` otherwise).  The unguarded attribute reads
`self.prompt.__name__` / `self.postprocess.__name__` may raise. -/
def get_params {ρ : Type} (s : SERPEnrichmentStep ρ) :
    Except PyErr (List (String × Option String)) := do
  let promptName ← pyDunderName s.prompt
  let postprocessName ← match s.postprocess with
    | some p => Except.map some (pyDunderName p)
    | none => Except.ok none
  return stepBaseGetParams s.name ++
    [("prompt", some promptName), ("postprocess", postprocessName)]

/-- Method `_get_search_results` of `SERPEnrichmentStep` from `serp.py`: builds the
payload and headers, performs the POST via `requests.request`, and returns
`response.text` — with no inspection of the response's status code. -/
def _get_search_results {ρ : Type} (_s : SERPEnrichmentStep ρ)
    (http : HttpClient) (env : PyEnv) (q : String) : Except PyErr String := do
  let response ← http (serpRequest env q)
  return response.text

/-- The effective postprocess of `_run`:
`postprocess = self.postprocess if self.postprocess is not None else lambda x: x`. -/
def effPostprocess {ρ : Type} (s : SERPEnrichmentStep ρ) :
    String → Except PyErr String :=
  match s.postprocess with
  | some p => p.fn
  | none => fun x => Except.ok x

/-- The inner callable `fn` of `_run`:
`def fn(x): return postprocess(self._get_search_results(x))`. -/
def serpFn {ρ : Type} (s : SERPEnrichmentStep ρ) (http : HttpClient)
    (env : PyEnv) (x : String) : Except PyErr String := do
  let raw ← s._get_search_results http env x
  s.effPostprocess raw

/-- Method `_run` of `SERPEnrichmentStep` from `serp.py`: derives the search prompt
(any exception here propagates, outside the instrumentation), wraps the
call-plus-postprocess in `with_statistics`, and returns a `StepResult` with
the single field `{self.name: result}`, the statistics, and the derived
prompt as `input`. -/
def _run {ρ : Type} (s : SERPEnrichmentStep ρ) (http : HttpClient)
    (env : PyEnv) (elapsed : Nat) (row : ρ) : Except PyErr (StepResult String) := do
  let search_prompt ← s.prompt.fn row
  let rs := with_statistics elapsed (s.serpFn http env) search_prompt
  return { fields := [(s.name, rs.1)], statistics := rs.2, input := search_prompt }

end SERPEnrichmentStep

/-- The Python identity function `lambda x: x` packaged as a callable object,
used to compare a step configured with an explicit identity postprocess
against one configured with `postprocess=None`. -/
def identityCallable : PyCallable String String :=
  ⟨fun x => Except.ok x, some "identity"⟩

/-- Concrete demo step (the spec's concrete scenario): name `serp`, prompt
appending " headquarters" to the row, no postprocess. -/
def demoStep : SERPEnrichmentStep String :=
  { name := "serp"
    prompt := ⟨fun r => Except.ok (r ++ " headquarters"), some "company_query"⟩
    postprocess := none }

/-- A demo step whose prompt callable raises a `KeyError`. -/
def badPromptStep : SERPEnrichmentStep String :=
  { name := "serp"
    prompt := ⟨fun _ => Except.error ⟨"KeyError", "company"⟩, some "company_query"⟩
    postprocess := none }

/-- A demo step whose prompt callable is a `functools.partial`-style object
with no `__name__` attribute. -/
def partialPromptStep : SERPEnrichmentStep String :=
  { name := "serp"
    prompt := ⟨fun r => Except.ok r, none⟩
    postprocess := none }

/-- An HTTP client that answers every request with a 200 response. -/
def demoHttp : HttpClient := fun _ => Except.ok ⟨200, "Acme HQ is in Springfield"⟩

/-- An HTTP client that answers every request with a 401 error response
(an API-level failure delivered as an ordinary response, as `requests`
does for non-2xx statuses). -/
def unauthorizedHttp : HttpClient :=
  fun _ => Except.ok ⟨401, "\x7b\"message\": \"Unauthorized.\"\x7d"⟩

/-- An HTTP client that raises a transport-level timeout on every request. -/
def timeoutHttp : HttpClient :=
  fun _ => Except.error ⟨"ConnectTimeout", "connection to google.serper.dev timed out"⟩

/-- A demo process environment holding the API key. -/
def demoEnv : PyEnv := fun k => if k = "SERPAPI_API_KEY" then some "test-key" else none

/-- The exception raised by `timeoutHttp`. -/
def timeoutErr : PyErr := ⟨"ConnectTimeout", "connection to google.serper.dev timed out"⟩

/-- The step result `demoStep` produces under `timeoutHttp` with a clock
reading of 7: the error marker under the step's name, failure statistics
carrying the exception, and the derived input. -/
def timeoutResult : StepResult String :=
  { fields := [("serp", StepValue.errMarker timeoutErr)]
    statistics := ⟨7, false, some timeoutErr⟩
    input := "Acme headquarters" }

/-- The step result `demoStep` produces under `demoHttp` with a clock
reading of 3: the spec's concrete success scenario. -/
def demoResult : StepResult String :=
  { fields := [("serp", StepValue.ok "Acme HQ is in Springfield")]
    statistics := ⟨3, true, none⟩
    input := "Acme headquarters" }

/-- The 401 response `unauthorizedHttp` delivers. -/
def unauthorizedResp : HttpResponse := ⟨401, "\x7b\"message\": \"Unauthorized.\"\x7d"⟩

/-- Test whether a callable object carries a `__name__` attribute. -/
def hasDunderName (p : PyCallable String String) : Bool := p.attrName.isSome

/-- Test whether a callable object lacks a `__name__` attribute. -/
def lacksDunderName (p : PyCallable String String) : Bool := p.attrName.isNone

/-- Helper shared by the success-path theorems: once the prompt has derived
`x` and the instrumented inner callable returns `v` on `x`, `_run` yields
the success `StepResult`. -/
theorem run_ok_of_serpFn_ok {ρ : Type} (s : SERPEnrichmentStep ρ) (http : HttpClient)
    (env : PyEnv) (elapsed : Nat) (row : ρ) (x v : String)
    (hp : s.prompt.fn row = Except.ok x)
    (hfn : s.serpFn http env x = Except.ok v) :
    s._run http env elapsed row =
      Except.ok { fields := [(s.name, StepValue.ok v)],
                  statistics := ⟨elapsed, true, none⟩, input := x } := by
  simp [SERPEnrichmentStep._run, hp, with_statistics, hfn]

/-- C1: if the prompt derives `x` for row `r`, the external search call
succeeds on `x` with raw result `raw`, and the effective postprocess maps
`raw` to `v` (when no postprocess is configured it is the identity, so
`v = raw`), then `_run r` returns a `StepResult` whose single field under
the step's name is `v` and whose statistics mark the call as a success. -/
theorem serp_run_success {ρ : Type} (s : SERPEnrichmentStep ρ) (http : HttpClient)
    (env : PyEnv) (elapsed : Nat) (row : ρ) (x raw v : String)
    (hp : s.prompt.fn row = Except.ok x)
    (hc : s._get_search_results http env x = Except.ok raw)
    (hpp : s.effPostprocess raw = Except.ok v) :
    s._run http env elapsed row =
      Except.ok { fields := [(s.name, StepValue.ok v)],
                  statistics := ⟨elapsed, true, none⟩, input := x } := by
  have hfn : s.serpFn http env x = Except.ok v := by
    unfold SERPEnrichmentStep.serpFn
    rw [hc]
    exact hpp
  exact run_ok_of_serpFn_ok s http env elapsed row x v hp hfn

/-- Witness for C1 at the spec's concrete scenario: row `"Acme"`, prompt
derives `"Acme headquarters"`, the call returns the Springfield answer,
no postprocess. -/
theorem serp_run_success_witness :
    demoStep.prompt.fn "Acme" = Except.ok "Acme headquarters" ∧
    demoStep._get_search_results demoHttp demoEnv "Acme headquarters" =
      Except.ok "Acme HQ is in Springfield" ∧
    demoStep.effPostprocess "Acme HQ is in Springfield" =
      Except.ok "Acme HQ is in Springfield" ∧
    demoStep._run demoHttp demoEnv 3 "Acme" =
      Except.ok { fields := [("serp", StepValue.ok "Acme HQ is in Springfield")],
                  statistics := ⟨3, true, none⟩, input := "Acme headquarters" } :=
  ⟨rfl, rfl, rfl,
    serp_run_success demoStep demoHttp demoEnv 3 "Acme"
      "Acme headquarters" "Acme HQ is in Springfield" "Acme HQ is in Springfield"
      rfl rfl rfl⟩

/-- C2: whenever `_run` returns a `StepResult`, its `fields` mapping has
exactly one key, and that key is the step's name — in the success and the
failure outcome alike. -/
theorem serp_run_fields_single_key {ρ : Type} (s : SERPEnrichmentStep ρ)
    (http : HttpClient) (env : PyEnv) (elapsed : Nat) (row : ρ)
    (r : StepResult String)
    (h : s._run http env elapsed row = Except.ok r) :
    r.fields.map Prod.fst = [s.name] := by
  cases hp : s.prompt.fn row with
  | error e => simp [SERPEnrichmentStep._run, hp] at h
  | ok x =>
    simp [SERPEnrichmentStep._run, hp] at h
    subst h
    rfl

/-- Witness for C2 on a failing external call: even on failure the lone
field key is the step's name. -/
theorem serp_run_fields_single_key_witness :
    demoStep._run timeoutHttp demoEnv 7 "Acme" = Except.ok timeoutResult ∧
    timeoutResult.fields.map Prod.fst = ["serp"] :=
  ⟨rfl, serp_run_fields_single_key demoStep timeoutHttp demoEnv 7 "Acme"
    timeoutResult rfl⟩

/-- C3: if the prompt derives `x` but the instrumented call (external call
or postprocess) raises `e`, `_run` does not raise: it returns a
`StepResult` whose field under the step's name is the explicit error
marker carrying `e` (not a silent `None`), and whose statistics mark
failure and record the exception's kind and message. -/
theorem serp_run_failure {ρ : Type} (s : SERPEnrichmentStep ρ) (http : HttpClient)
    (env : PyEnv) (elapsed : Nat) (row : ρ) (x : String) (e : PyErr)
    (hp : s.prompt.fn row = Except.ok x)
    (hf : s.serpFn http env x = Except.error e) :
    s._run http env elapsed row =
      Except.ok { fields := [(s.name, StepValue.errMarker e)],
                  statistics := ⟨elapsed, false, some e⟩, input := x } := by
  simp [SERPEnrichmentStep._run, hp, with_statistics, hf]

/-- Witness for C3 with a transport-level timeout raised by the external
call. -/
theorem serp_run_failure_witness :
    demoStep.prompt.fn "Acme" = Except.ok "Acme headquarters" ∧
    demoStep.serpFn timeoutHttp demoEnv "Acme headquarters" = Except.error timeoutErr ∧
    demoStep._run timeoutHttp demoEnv 7 "Acme" = Except.ok timeoutResult :=
  ⟨rfl, rfl,
    serp_run_failure demoStep timeoutHttp demoEnv 7 "Acme" "Acme headquarters"
      timeoutErr rfl rfl⟩

/-- C4: if the prompt (derivation function) raises `e` on row `r`, that
exception propagates out of `_run` unchanged, for every HTTP client,
environment and clock — so no `StepResult` is produced, no external call
is attempted, and no statistics are recorded. -/
theorem serp_run_prompt_error_propagates {ρ : Type} (s : SERPEnrichmentStep ρ)
    (row : ρ) (e : PyErr)
    (hp : s.prompt.fn row = Except.error e) :
    ∀ (http : HttpClient) (env : PyEnv) (elapsed : Nat),
      s._run http env elapsed row = Except.error e := by
  intro http env elapsed
  simp [SERPEnrichmentStep._run, hp]

/-- Witness for C4: a prompt raising `KeyError` makes `_run` raise the
same `KeyError`, identically under a working and a failing HTTP client. -/
theorem serp_run_prompt_error_propagates_witness :
    badPromptStep.prompt.fn "Acme" = Except.error ⟨"KeyError", "company"⟩ ∧
    badPromptStep._run demoHttp demoEnv 3 "Acme" =
      Except.error ⟨"KeyError", "company"⟩ ∧
    badPromptStep._run timeoutHttp demoEnv 99 "Acme" =
      Except.error ⟨"KeyError", "company"⟩ :=
  ⟨rfl,
    serp_run_prompt_error_propagates badPromptStep "Acme" ⟨"KeyError", "company"⟩
      rfl demoHttp demoEnv 3,
    serp_run_prompt_error_propagates badPromptStep "Acme" ⟨"KeyError", "company"⟩
      rfl timeoutHttp demoEnv 99⟩

/-- C5: for a fixed configuration whose callables carry `__name__`
attributes, `get_params` returns exactly the mapping holding the step's
name and the functions' `__name__` labels (`none` standing for Python
`None` when postprocess is absent) — a fixed value determined by the
configuration alone, never containing the callables themselves. -/
theorem get_params_description {ρ : Type} (s : SERPEnrichmentStep ρ) (np : String)
    (hp : s.prompt.attrName = some np)
    (hq : s.postprocess.all hasDunderName = true) :
    s.get_params = Except.ok
      [("name", some s.name), ("prompt", some np),
       ("postprocess", s.postprocess.bind PyCallable.attrName)] := by
  cases hpost : s.postprocess with
  | none =>
    simp [SERPEnrichmentStep.get_params, pyDunderName, hp, hpost, stepBaseGetParams]
    rfl
  | some p =>
    rw [hpost] at hq
    cases hn : p.attrName with
    | none => simp [Option.all, hasDunderName, hn] at hq
    | some nq =>
      simp [SERPEnrichmentStep.get_params, pyDunderName, hp, hpost, hn,
        stepBaseGetParams, Except.map]
      rfl

/-- Witness for C5 on the demo configuration. -/
theorem get_params_description_witness :
    demoStep.prompt.attrName = some "company_query" ∧
    demoStep.postprocess.all hasDunderName = true ∧
    demoStep.get_params = Except.ok
      [("name", some "serp"), ("prompt", some "company_query"),
       ("postprocess", none)] :=
  ⟨rfl, rfl, get_params_description demoStep "company_query" rfl rfl⟩

/-- C6: whenever `_run` returns a `StepResult` `r`, `r.input` is exactly
the value the prompt derived from the row, and `r`'s field value and
statistics are those of the instrumented inner call applied to that very
input. -/
theorem serp_run_input_from_prompt {ρ : Type} (s : SERPEnrichmentStep ρ)
    (http : HttpClient) (env : PyEnv) (elapsed : Nat) (row : ρ)
    (r : StepResult String)
    (h : s._run http env elapsed row = Except.ok r) :
    s.prompt.fn row = Except.ok r.input ∧
    r = { fields := [(s.name, (with_statistics elapsed (s.serpFn http env) r.input).1)],
          statistics := (with_statistics elapsed (s.serpFn http env) r.input).2,
          input := r.input } := by
  cases hp : s.prompt.fn row with
  | error e => simp [SERPEnrichmentStep._run, hp] at h
  | ok x =>
    simp [SERPEnrichmentStep._run, hp] at h
    subst h
    exact ⟨rfl, rfl⟩

/-- Witness for C6 at the concrete success scenario. -/
theorem serp_run_input_from_prompt_witness :
    demoStep._run demoHttp demoEnv 3 "Acme" = Except.ok demoResult ∧
    demoStep.prompt.fn "Acme" = Except.ok demoResult.input ∧
    demoResult =
      { fields := [("serp",
            (with_statistics 3 (demoStep.serpFn demoHttp demoEnv) demoResult.input).1)],
        statistics := (with_statistics 3 (demoStep.serpFn demoHttp demoEnv) demoResult.input).2,
        input := demoResult.input } :=
  ⟨rfl, serp_run_input_from_prompt demoStep demoHttp demoEnv 3 "Acme" demoResult rfl⟩

/-- C7: a step configured with `postprocess=None` behaves identically, on
every row and under every HTTP client, environment and clock, to the same
step configured with the identity function as postprocess: the postprocess
defaults to identity when absent. -/
theorem serp_postprocess_none_defaults_to_identity {ρ : Type}
    (s : SERPEnrichmentStep ρ) :
    ∀ (http : HttpClient) (env : PyEnv) (elapsed : Nat) (row : ρ),
      SERPEnrichmentStep._run { s with postprocess := none } http env elapsed row =
      SERPEnrichmentStep._run { s with postprocess := some identityCallable }
        http env elapsed row := by
  intro http env elapsed row
  have hfn : SERPEnrichmentStep.serpFn { s with postprocess := none } http env =
      SERPEnrichmentStep.serpFn { s with postprocess := some identityCallable } http env := by
    funext x
    unfold SERPEnrichmentStep.serpFn
    have hg : SERPEnrichmentStep._get_search_results
        { s with postprocess := some identityCallable } http env x =
        SERPEnrichmentStep._get_search_results { s with postprocess := none }
          http env x := rfl
    rw [hg]
    cases SERPEnrichmentStep._get_search_results { s with postprocess := none }
        http env x with
    | error e => rfl
    | ok raw => rfl
  unfold SERPEnrichmentStep._run
  rw [hfn]

/-- C8: whenever `_run` returns a `StepResult`, its statistics carry the
measured latency, a non-negative quantity — in the success and failure
outcomes alike (the statement holds for every HTTP client, covering
both). -/
theorem serp_run_latency_present_nonneg {ρ : Type} (s : SERPEnrichmentStep ρ)
    (http : HttpClient) (env : PyEnv) (elapsed : Nat) (row : ρ)
    (r : StepResult String)
    (h : s._run http env elapsed row = Except.ok r) :
    r.statistics.latency = elapsed ∧ 0 ≤ r.statistics.latency := by
  cases hp : s.prompt.fn row with
  | error e => simp [SERPEnrichmentStep._run, hp] at h
  | ok x =>
    simp [SERPEnrichmentStep._run, hp] at h
    subst h
    refine ⟨?_, Nat.zero_le _⟩
    cases hf : s.serpFn http env x <;> simp [with_statistics, hf]

/-- Witness for C8 on the failure outcome. -/
theorem serp_run_latency_present_nonneg_witness :
    demoStep._run timeoutHttp demoEnv 7 "Acme" = Except.ok timeoutResult ∧
    (timeoutResult.statistics.latency = 7 ∧ 0 ≤ timeoutResult.statistics.latency) :=
  ⟨rfl, serp_run_latency_present_nonneg demoStep timeoutHttp demoEnv 7 "Acme"
    timeoutResult rfl⟩

/-- C9: when a configured callable lacks a `__name__` attribute (as a
`functools.partial` object does) — the prompt, or the postprocess when one
is set — `get_params` raises `AttributeError` instead of returning a
description. -/
theorem get_params_missing_dunder_name_raises {ρ : Type} (s : SERPEnrichmentStep ρ)
    (h : s.prompt.attrName = none ∨ s.postprocess.any lacksDunderName = true) :
    s.get_params =
      Except.error ⟨"AttributeError", "object has no attribute __name__"⟩ := by
  rcases h with h | h
  · simp [SERPEnrichmentStep.get_params, pyDunderName, h]
    rfl
  · cases hq : s.postprocess with
    | none => rw [hq] at h; simp [Option.any] at h
    | some p =>
      rw [hq] at h
      cases hn : p.attrName with
      | some n => simp [Option.any, lacksDunderName, hn] at h
      | none =>
        cases hpn : s.prompt.attrName with
        | none =>
          simp [SERPEnrichmentStep.get_params, pyDunderName, hpn]
          rfl
        | some np =>
          simp [SERPEnrichmentStep.get_params, pyDunderName, hpn, hq, hn, Except.map]
          rfl

/-- Witness for C9: a `functools.partial`-style prompt makes `get_params`
raise `AttributeError`. -/
theorem get_params_missing_dunder_name_raises_witness :
    (partialPromptStep.prompt.attrName = none ∨
      partialPromptStep.postprocess.any lacksDunderName = true) ∧
    partialPromptStep.get_params =
      Except.error ⟨"AttributeError", "object has no attribute __name__"⟩ :=
  ⟨Or.inl rfl, get_params_missing_dunder_name_raises partialPromptStep (Or.inl rfl)⟩

/-- C10: for every response the HTTP client delivers — whatever its status
code, including API-level errors such as 401 — `_get_search_results`
returns the response body text without raising, and (with no postprocess
configured) `_run` records the call as a success with that body as the
produced value. -/
theorem serp_ignores_http_status {ρ : Type} (s : SERPEnrichmentStep ρ)
    (http : HttpClient) (env : PyEnv) (elapsed : Nat) (row : ρ) (q : String)
    (resp : HttpResponse)
    (hh : http (serpRequest env q) = Except.ok resp)
    (hp : s.prompt.fn row = Except.ok q)
    (hpost : s.postprocess = none) :
    s._get_search_results http env q = Except.ok resp.text ∧
    s._run http env elapsed row =
      Except.ok { fields := [(s.name, StepValue.ok resp.text)],
                  statistics := ⟨elapsed, true, none⟩, input := q } := by
  have hg : s._get_search_results http env q = Except.ok resp.text := by
    unfold SERPEnrichmentStep._get_search_results
    rw [hh]
    rfl
  refine ⟨hg, ?_⟩
  have hfn : s.serpFn http env q = Except.ok resp.text := by
    unfold SERPEnrichmentStep.serpFn
    rw [hg]
    simp [SERPEnrichmentStep.effPostprocess, hpost]
    rfl
  exact run_ok_of_serpFn_ok s http env elapsed row q resp.text hp hfn

/-- Witness for C10 with a 401 Unauthorized response: the error body is
returned as the value and the call is recorded as a success. -/
theorem serp_ignores_http_status_witness :
    unauthorizedResp.status = 401 ∧
    unauthorizedHttp (serpRequest demoEnv "Acme headquarters") =
      Except.ok unauthorizedResp ∧
    demoStep.prompt.fn "Acme" = Except.ok "Acme headquarters" ∧
    demoStep.postprocess = none ∧
    (demoStep._get_search_results unauthorizedHttp demoEnv "Acme headquarters" =
        Except.ok unauthorizedResp.text ∧
      demoStep._run unauthorizedHttp demoEnv 2 "Acme" =
        Except.ok { fields := [("serp", StepValue.ok unauthorizedResp.text)],
                    statistics := ⟨2, true, none⟩, input := "Acme headquarters" }) :=
  ⟨rfl, rfl, rfl, rfl,
    serp_ignores_http_status demoStep unauthorizedHttp demoEnv 2 "Acme"
      "Acme headquarters" unauthorizedResp rfl rfl rfl⟩
